import Mathlib

/-!
Shallow embedding of `src/smbclient/client.py`: the dual-node SMB session
manager (`SMB` class) and its pydantic configuration models.  External
collaborators (the wire protocol `SMBConnection`, the logger, the clock)
are modelled as explicit outcome parameters; machine calls that Python
would make against them appear as `Except`/`Bool` oracles.
-/

namespace Smb

/-- Python exceptions that the client code can observe: the
AttributeError raised by attribute access on `None`, a generic
`Exception(msg)`, and errors coming back from the wire-protocol
collaborator (transport-level or operation-level). -/
inductive PyErr where
  | attributeError
  | exceptionMsg (msg : String)
  | transportError
  | operationFailure (msg : String)
deriving DecidableEq

/-- The two configured endpoints of the dual-node manager. -/
inductive Endpoint where
  | master
  | backup
deriving DecidableEq

/-- A live wire-protocol connection as the client observes it: the only
attribute the client reads back is `remote_name` (the host string the
connection was created with). -/
structure Conn where
  remote_name : String
deriving DecidableEq

/-- Fully-populated view of one node's configuration (host, share,
credentials), as the running methods of `SMB` use it after construction.
Construction itself (pydantic validation with `Field(None, ...)`
declarations) is modelled separately below. -/
structure NodeCfg where
  host : String
  service_name : String
  username : String
  password : String
deriving DecidableEq

/-- Fully-populated view of `self.cfg` used by the running methods. -/
structure SMBCfg where
  master_node : NodeCfg
  backup_node : NodeCfg
  reconnect_wait_time : Int
  reconnect_attempts : Int
deriving DecidableEq

/-- Target of the attempt made by one iteration of the `while` loop in
`SMB.connect` (client.py lines 76-88) when the counter is `try_count`:
the body runs `__connect_backup` when
`try_count >= self.cfg.reconnect_attempts` and `__connect_master`
otherwise. -/
def connectTarget (reconnect_attempts try_count : Int) : Endpoint :=
  if reconnect_attempts ≤ try_count then Endpoint.backup else Endpoint.master

/-- Fuel-bounded run of the `while not self.current_connection` loop of
`SMB.connect`, entered with counter `tc`.  `ok tc e` is the outcome of
the connect attempt against endpoint `e` made with counter value `tc`
(the counter increments once per iteration and is never reset, so it
identifies the attempt).  On a successful attempt the connection is
bound and the loop exits, returning the endpoint bound; on failure the
counter increments and the loop repeats.  The loop body has no error
exit, so the only results are `some` endpoint (connected) or `none`
(fuel exhausted with the loop still running). -/
def connectRun (ra : Int) (ok : Int → Endpoint → Bool) : Nat → Int → Option Endpoint
  | 0, _ => none
  | fuel + 1, tc =>
    let tgt := connectTarget ra tc
    if ok tc tgt then some tgt else connectRun ra ok fuel (tc + 1)

/-- Endpoints attempted, in order, by the fuel-bounded connect loop of
`SMB.connect` entered with counter `tc`. -/
def connectTrace (ra : Int) (ok : Int → Endpoint → Bool) : Nat → Int → List Endpoint
  | 0, _ => []
  | fuel + 1, tc =>
    let tgt := connectTarget ra tc
    if ok tc tgt then [tgt] else tgt :: connectTrace ra ok fuel (tc + 1)

/-- Possible results of `SMB.check_connection` (client.py lines 90-110)
as a Python caller observes them: `return True`, `return False`, the
implicit `return None` when neither `if`/`elif` branch is taken, or an
exception propagating out (attribute access on a `None` connection). -/
inductive CheckResult where
  | retTrue
  | retFalse
  | retNone
  | raised (e : PyErr)
deriving DecidableEq

/-- Python `str.upper()` as the host comparison uses it, modelled over
the character list (per-character uppercase). -/
def pyUpper (s : String) : String := String.mk (s.data.map Char.toUpper)

/-- `SMB.check_connection` (client.py lines 90-110).  `conn` is
`self.current_connection` on entry; `listOk e` is whether the
`listPath` health check against endpoint `e`'s share succeeds;
`connectResult` is `self.current_connection` after the inner `connect()`
call returns.  The code compares `self.current_connection.remote_name`
(raising AttributeError when the connection is `None`) case-insensitively
against the configured master and backup hosts; on a health-check
failure it clears the connection, reconnects, and returns `True` or
`False` by testing `self.current_connection`; when neither host matches
it falls through, returning `None`. -/
def check_connection (cfg : SMBCfg) (conn : Option Conn)
    (listOk : Endpoint → Bool) (connectResult : Option Conn) : CheckResult :=
  match conn with
  | none => CheckResult.raised PyErr.attributeError
  | some c =>
    if pyUpper c.remote_name = pyUpper cfg.master_node.host then
      if listOk Endpoint.master then CheckResult.retTrue
      else
        match connectResult with
        | some _ => CheckResult.retTrue
        | none => CheckResult.retFalse
    else if pyUpper c.remote_name = pyUpper cfg.backup_node.host then
      if listOk Endpoint.backup then CheckResult.retTrue
      else
        match connectResult with
        | some _ => CheckResult.retTrue
        | none => CheckResult.retFalse
    else CheckResult.retNone

/-- One directory entry as returned by `listPath`: the client reads the
`filename` and `create_time` attributes. -/
structure SharedFile where
  filename : String
  create_time : Int
deriving DecidableEq

/-- Sort key comparison used by `files_list.sort(key=lambda x: x.create_time)`
without `reverse`: ascending `create_time`. -/
def ascLE (a b : SharedFile) : Prop := a.create_time ≤ b.create_time

/-- Sort key comparison realising `reverse=True`: descending `create_time`. -/
def descLE (a b : SharedFile) : Prop := b.create_time ≤ a.create_time

instance : DecidableRel ascLE := fun a b => Int.decLe a.create_time b.create_time

instance : DecidableRel descLE := fun a b => Int.decLe b.create_time a.create_time

instance : IsTotal SharedFile ascLE := ⟨fun a b => le_total a.create_time b.create_time⟩

instance : IsTotal SharedFile descLE := ⟨fun a b => le_total b.create_time a.create_time⟩

instance : IsTrans SharedFile ascLE := ⟨fun _ _ _ h1 h2 => le_trans h1 h2⟩

instance : IsTrans SharedFile descLE := ⟨fun _ _ _ h1 h2 => le_trans h2 h1⟩

/-- Python `list.sort(key=lambda x: x.create_time, reverse=r)` is a stable
sort (Timsort); modelled with Mathlib's stable `insertionSort`.  With
`reverse=True` ties keep their input order while keys descend, which is
exactly a stable sort under the flipped key comparison. -/
def pySortByCreateTime (reverse : Bool) (l : List SharedFile) : List SharedFile :=
  if reverse then List.insertionSort descLE l else List.insertionSort ascLE l

/-- `SMB.ls` (client.py lines 112-126).  `check` is the outcome of the
`self.check_connection()` call; `entries` is the listing that
`listPath(self.service_name, dir_path, pattern=regex)` returns.  A truthy
check sorts the entries by `create_time` with
`reverse=(sort_order == "desc")` and returns the filenames; a falsy check
(`False` or `None`) raises `Exception("not available connection")`; an
exception raised inside `check_connection` propagates. -/
def ls (check : CheckResult) (entries : List SharedFile) (sort_order : String) :
    Except PyErr (List String) :=
  match check with
  | CheckResult.raised e => Except.error e
  | CheckResult.retTrue =>
      Except.ok ((pySortByCreateTime (sort_order == "desc") entries).map
        (fun f => f.filename))
  | _ => Except.error (PyErr.exceptionMsg "not available connection")

/-- `SMB.check_file_in_directory` (client.py lines 128-137): after the
`if not self.check_connection(): self.connect()` guard (which only
refreshes the session), it delegates to `self.ls(dir_path)` with `ls`'s
default arguments and tests membership with Python's `in`.  `check` is
the check outcome that the inner `ls` observes; `entries` the same
directory listing. -/
def check_file_in_directory (check : CheckResult) (entries : List SharedFile)
    (file_name : String) : Except PyErr Bool :=
  match ls check entries "desc" with
  | Except.ok names => Except.ok (names.contains file_name)
  | Except.error e => Except.error e

/-- `SMB.upload_bytes` (client.py lines 139-154).  Inside the `try`:
`check` is the outcome of `self.check_connection()` (an exception there
is caught by the enclosing `except`, which logs and returns `False`); on
a falsy check `self.connect()` runs, and its successful return is what
is modelled (the loop blocks otherwise); then `storeFile` is issued with
outcome `store` and `True` is returned on success.  Any exception is
caught, logged, and `False` returned.  The second component counts how
many times `storeFile` was invoked during the call. -/
def upload_bytes (check : CheckResult) (store : Except PyErr Unit) : Bool × Nat :=
  match check with
  | CheckResult.raised _ => (false, 0)
  | _ =>
    match store with
    | Except.ok _ => (true, 1)
    | Except.error _ => (false, 1)

/-- `SMB.delete_file` (client.py lines 174-188): same guarded shape as
`upload_bytes`, delegating to `deleteFiles` with outcome `del`. -/
def delete_file (check : CheckResult) (del : Except PyErr Unit) : Bool × Nat :=
  match check with
  | CheckResult.raised _ => (false, 0)
  | _ =>
    match del with
    | Except.ok _ => (true, 1)
    | Except.error _ => (false, 1)

/-- `SMB.move_file` (client.py lines 190-204): same guarded shape as
`upload_bytes`, delegating to `rename` with outcome `ren`. -/
def move_file (check : CheckResult) (ren : Except PyErr Unit) : Bool × Nat :=
  match check with
  | CheckResult.raised _ => (false, 0)
  | _ =>
    match ren with
    | Except.ok _ => (true, 1)
    | Except.error _ => (false, 1)

/-- A Python file-like byte buffer as `download_bytes` returns one: the
bytes it holds and the position of the read cursor. -/
structure PyBuffer where
  data : List UInt8
  pos : Nat
deriving DecidableEq

/-- `SMB.download_bytes` (client.py lines 156-172).  Inside the `try`:
`check` as in `upload_bytes`; then a fresh `TemporaryFile` is filled by
`retrieveFile` with outcome `retrieve` (the full file contents on
success), `seek(0)` puts the cursor at the start, and the buffer is
returned.  Any exception is logged and re-raised (`raise err`), never
swallowed. -/
def download_bytes (check : CheckResult) (retrieve : Except PyErr (List UInt8)) :
    Except PyErr PyBuffer :=
  match check with
  | CheckResult.raised e => Except.error e
  | _ =>
    match retrieve with
    | Except.ok data => Except.ok ⟨data, 0⟩
    | Except.error e => Except.error e

/-- `SMB.__del__` (client.py lines 39-41): `self.current_connection.close()`
then `self.current_connection = None`.  When `current_connection` is
`None`, the `.close()` attribute access on `None` raises AttributeError.
On success the result is the new value of `current_connection`. -/
def smbDel (conn : Option Conn) : Except PyErr (Option Conn) :=
  match conn with
  | some _ => Except.ok none
  | none => Except.error PyErr.attributeError

/-- A pydantic field declared `Field(None, description=...)` (client.py
lines 10-28): the declaration gives the field the default value `None`,
so the field is optional — validation accepts an absent input and
substitutes the default instead of failing.  A required pydantic field
(one declared without a default) would instead reject an absent input. -/
def fieldNoneDefault {α : Type} (given : Option α) : Except PyErr (Option α) :=
  match given with
  | some v => Except.ok (some v)
  | none => Except.ok none

/-- The `MasterNode` pydantic model (client.py lines 10-14): four string
fields, each declared `Field(None, ...)`, hence each optional with
default `None`. -/
structure MasterNode where
  host : Option String
  service_name : Option String
  username : Option String
  password : Option String
deriving DecidableEq

/-- The `BackupNode` pydantic model (client.py lines 17-21), identical in
shape to `MasterNode`. -/
structure BackupNode where
  host : Option String
  service_name : Option String
  username : Option String
  password : Option String
deriving DecidableEq

/-- The `SMBConfig` pydantic model (client.py lines 24-28): two node
models and two integers, each declared `Field(None, ...)`. -/
structure SMBConfig where
  master_node : Option MasterNode
  backup_node : Option BackupNode
  reconnect_wait_time : Option Int
  reconnect_attempts : Option Int
deriving DecidableEq

/-- Pydantic validation of `MasterNode` from keyword inputs, each possibly
absent: every field resolves through its `Field(None, ...)` default. -/
def MasterNode.validate (host service_name username password : Option String) :
    Except PyErr MasterNode :=
  (fieldNoneDefault host).bind fun h =>
  (fieldNoneDefault service_name).bind fun s =>
  (fieldNoneDefault username).bind fun u =>
  (fieldNoneDefault password).bind fun p =>
  Except.ok ⟨h, s, u, p⟩

/-- Pydantic validation of `BackupNode` from keyword inputs. -/
def BackupNode.validate (host service_name username password : Option String) :
    Except PyErr BackupNode :=
  (fieldNoneDefault host).bind fun h =>
  (fieldNoneDefault service_name).bind fun s =>
  (fieldNoneDefault username).bind fun u =>
  (fieldNoneDefault password).bind fun p =>
  Except.ok ⟨h, s, u, p⟩

/-- Pydantic validation of `SMBConfig` from keyword inputs, as performed
by `SMBConfig(**cfg)` in `SMB.__init__` (client.py line 34). -/
def SMBConfig.validate (master_node : Option MasterNode)
    (backup_node : Option BackupNode)
    (reconnect_wait_time reconnect_attempts : Option Int) :
    Except PyErr SMBConfig :=
  (fieldNoneDefault master_node).bind fun m =>
  (fieldNoneDefault backup_node).bind fun b =>
  (fieldNoneDefault reconnect_wait_time).bind fun w =>
  (fieldNoneDefault reconnect_attempts).bind fun a =>
  Except.ok ⟨m, b, w, a⟩

/-- Concrete fully-populated configuration used in witnesses and
counterexamples. -/
def cfgEx : SMBCfg :=
  ⟨⟨"master.example", "share", "user", "pw"⟩,
   ⟨"backup.example", "share", "user", "pw"⟩, 1, 3⟩

/-- Concrete directory listing with creation timestamps `[3, 1, 2]`. -/
def ex312 : List SharedFile := [⟨"f0", 3⟩, ⟨"f1", 1⟩, ⟨"f2", 2⟩]

/-- Helper: with every attempt failing, the loop attempts exactly the
endpoints `connectTarget` prescribes for counters `tc, tc+1, ...`. -/
theorem connectTrace_allFail (ra : Int) (fuel : Nat) :
    ∀ tc : Int,
      connectTrace ra (fun _ _ => false) fuel tc =
        (List.range fuel).map (fun i : Nat => connectTarget ra (tc + (i : Int))) := by
  induction fuel with
  | zero => intro tc; rfl
  | succ n ih =>
      intro tc
      have hfun : ∀ i : Nat, tc + ((i + 1 : Nat) : Int) = tc + 1 + (i : Int) := by
        intro i; push_cast; ring
      simp [connectTrace, List.range_succ_eq_map, ih, List.map_map, Function.comp, hfun]
      intro a _
      congr 1
      ring

/-- Helper: with every attempt failing, the loop never exits. -/
theorem connectRun_allFail (ra : Int) (fuel : Nat) :
    ∀ tc : Int, connectRun ra (fun _ _ => false) fuel tc = none := by
  induction fuel with
  | zero => intro tc; rfl
  | succ n ih => intro tc; simpa [connectRun] using ih (tc + 1)

/-- Helper: the loop exits only through a successful attempt against the
endpoint prescribed for some counter value it reached. -/
theorem connectRun_success (ra : Int) (ok : Int → Endpoint → Bool) (fuel : Nat) :
    ∀ (tc : Int) (e : Endpoint), connectRun ra ok fuel tc = some e →
      ∃ i : Nat, i < fuel ∧ connectTarget ra (tc + i) = e ∧ ok (tc + i) e = true := by
  induction fuel with
  | zero => intro tc e h; simp [connectRun] at h
  | succ n ih =>
      intro tc e h
      by_cases hok : ok tc (connectTarget ra tc) = true
      · have he : connectTarget ra tc = e := by
          simpa [connectRun, hok] using h
        exact ⟨0, Nat.succ_pos n, by simpa using he, by simpa [he] using hok⟩
      · have h' : connectRun ra ok n (tc + 1) = some e := by
          simpa [connectRun, hok] using h
        obtain ⟨i, hi, ht, ho⟩ := ih (tc + 1) e h'
        have hcast : tc + ((i + 1 : Nat) : Int) = tc + 1 + (i : Int) := by
          push_cast; ring
        exact ⟨i + 1, by omega, by rw [hcast]; exact ht, by rw [hcast]; exact ho⟩

/-- C1 (counterexample).  With `reconnect_attempts = 1` every attempt of
the connect loop, the very first included, targets the backup endpoint:
the master is never attempted before backup, refuting the claim for
`maxMasterAttempts = 1`.  With `reconnect_attempts = 3` and every attempt
failing, backup is first targeted at the third attempt, i.e. after only
two (not three) consecutive failed master attempts. -/
theorem connect_master_first_cx :
    connectTrace 1 (fun _ _ => false) 3 1 =
      [Endpoint.backup, Endpoint.backup, Endpoint.backup] ∧
    connectTrace 3 (fun _ _ => false) 4 1 =
      [Endpoint.master, Endpoint.master, Endpoint.backup, Endpoint.backup] := by
  constructor <;> decide

/-- C1 (amended).  The master endpoint is targeted exactly while
`try_count < reconnect_attempts`; since the counter starts at 1, under
consecutive failures the attempts with counters `1, ..., ra - 1` target
master and the attempt with counter `ra` is the first to target backup —
so backup is first tried after exactly `ra - 1` consecutive failed master
attempts, and the master is attempted at least once before backup only
when `reconnect_attempts ≥ 2` (for `reconnect_attempts = 1` the first
attempt already targets backup). -/
theorem connect_master_until_cap (ra : Int) (hra : 1 ≤ ra) :
    (∀ tc : Int, connectTarget ra tc = Endpoint.master ↔ tc < ra) ∧
    connectTarget ra ra = Endpoint.backup ∧
    (∀ fuel : Nat,
      connectTrace ra (fun _ _ => false) fuel 1 =
        (List.range fuel).map (fun i : Nat => connectTarget ra (1 + (i : Int)))) := by
  refine ⟨fun tc => ?_, ?_, fun fuel => connectTrace_allFail ra fuel 1⟩
  · unfold connectTarget
    by_cases h : ra ≤ tc <;> simp [h] <;> omega
  · simp [connectTarget]

/-- C1 (witness). -/
theorem connect_master_until_cap_witness :
    (connectTarget 3 2 = Endpoint.master ↔ (2 : Int) < 3) ∧
    connectTarget 3 3 = Endpoint.backup ∧
    connectTrace 3 (fun _ _ => false) 4 1 =
      (List.range 4).map (fun i : Nat => connectTarget 3 (1 + (i : Int))) :=
  ⟨(connect_master_until_cap 3 (by decide)).1 2,
   (connect_master_until_cap 3 (by decide)).2.1,
   (connect_master_until_cap 3 (by decide)).2.2 4⟩

/-- C2 (counterexample).  With `reconnect_attempts = 2` and every attempt
failing, the trace of attempted endpoints is
`[master, backup, backup, backup]`: after the failed backup attempt the
loop does not return to the master (the claimed alternation would give
`[master, backup, master, backup]`), because `try_count` keeps increasing
and is never reset. -/
theorem connect_alternation_cx :
    connectTrace 2 (fun _ _ => false) 4 1 =
      [Endpoint.master, Endpoint.backup, Endpoint.backup, Endpoint.backup] := by
  decide

/-- C2 (amended).  After a failed backup attempt the loop keeps targeting
backup: every attempt whose counter is at least `reconnect_attempts`
targets backup, and the counter never resets.  The non-termination part
of the claim does hold: the loop has no error exit, so under continued
failures it is still running at every bound, and it returns exactly when
some attempt succeeds (against the endpoint prescribed for the counter
value reached). -/
theorem connect_cycles_on_backup (ra : Int) :
    (∀ tc : Int, ra ≤ tc → connectTarget ra tc = Endpoint.backup) ∧
    (∀ (fuel : Nat) (tc : Int), connectRun ra (fun _ _ => false) fuel tc = none) ∧
    (∀ (ok : Int → Endpoint → Bool) (fuel : Nat) (tc : Int) (e : Endpoint),
      connectRun ra ok fuel tc = some e →
        ∃ i : Nat, i < fuel ∧ connectTarget ra (tc + i) = e ∧ ok (tc + i) e = true) := by
  refine ⟨fun tc h => ?_, fun fuel tc => connectRun_allFail ra fuel tc,
    fun ok fuel tc e h => connectRun_success ra ok fuel tc e h⟩
  simp [connectTarget, h]

/-- C2 (witness). -/
theorem connect_cycles_on_backup_witness :
    connectTarget 2 3 = Endpoint.backup ∧
    connectRun 2 (fun _ _ => false) 6 1 = none ∧
    (∃ i : Nat, i < 5 ∧ connectTarget 2 ((1 : Int) + i) = Endpoint.master ∧
      (fun _ _ => true : Int → Endpoint → Bool) ((1 : Int) + i) Endpoint.master = true) :=
  ⟨(connect_cycles_on_backup 2).1 3 (by decide),
   (connect_cycles_on_backup 2).2.1 6 1,
   (connect_cycles_on_backup 2).2.2 (fun _ _ => true) 5 1 Endpoint.master (by decide)⟩

/-- C3 (counterexample).  A connection-level `TransportFailure` during the
delegated `storeFile` of `upload_bytes` leaves the delegated call invoked
exactly once — the operation is not retried after a fresh session — and
the caller receives the plain boolean `False`, not a
`ConnectionUnavailable`-class failure. -/
theorem upload_no_retry_cx :
    upload_bytes CheckResult.retTrue (Except.error PyErr.transportError) = (false, 1) := by
  decide

/-- C3 (amended).  For upload, delete and move there is no retry at the
operation layer at all: the delegated protocol call is issued at most
once per invocation (zero times when `check_connection` itself raised),
the three operations behave identically, and when the delegated call
fails — with a connection-level error or any other — the operation
catches the exception and returns `False` after that single attempt,
surfacing no `ConnectionUnavailable` failure. -/
theorem ops_single_attempt_no_retry (check : CheckResult) (r : Except PyErr Unit)
    (e : PyErr) :
    (upload_bytes check r).2 ≤ 1 ∧
    delete_file check r = upload_bytes check r ∧
    move_file check r = upload_bytes check r ∧
    ((∀ e0 : PyErr, check ≠ CheckResult.raised e0) →
      upload_bytes check (Except.error e) = (false, 1)) := by
  refine ⟨?_, ?_, ?_, ?_⟩ <;> cases check <;>
    simp [upload_bytes, delete_file, move_file] <;>
    cases r <;> simp

/-- C3 (witness). -/
theorem ops_single_attempt_no_retry_witness :
    (upload_bytes CheckResult.retTrue (Except.error PyErr.transportError)).2 ≤ 1 ∧
    delete_file CheckResult.retTrue (Except.error PyErr.transportError) =
      upload_bytes CheckResult.retTrue (Except.error PyErr.transportError) ∧
    move_file CheckResult.retTrue (Except.error PyErr.transportError) =
      upload_bytes CheckResult.retTrue (Except.error PyErr.transportError) ∧
    upload_bytes CheckResult.retTrue (Except.error PyErr.transportError) = (false, 1) :=
  ⟨(ops_single_attempt_no_retry CheckResult.retTrue (Except.error PyErr.transportError)
      PyErr.transportError).1,
   (ops_single_attempt_no_retry CheckResult.retTrue (Except.error PyErr.transportError)
      PyErr.transportError).2.1,
   (ops_single_attempt_no_retry CheckResult.retTrue (Except.error PyErr.transportError)
      PyErr.transportError).2.2.1,
   (ops_single_attempt_no_retry CheckResult.retTrue (Except.error PyErr.transportError)
      PyErr.transportError).2.2.2 (by intro e0 h; cases h)⟩

/-- C4 (counterexample).  Calling `check_connection` while
`current_connection` is absent raises AttributeError (attribute access on
`None`) instead of running the connect cycle and blocking until
connected: the call does not return a verified-usable session. -/
theorem check_connection_absent_raises_cx :
    check_connection cfgEx none (fun _ => true) (some ⟨"master.example"⟩) =
      CheckResult.raised PyErr.attributeError := by
  decide

/-- C4 (amended).  When a session is present whose remote identity
matches (case-insensitively) the master or the backup host,
`check_connection` health-checks it and — because the inner `connect()`
returns only once a connection is bound — returns `True`; in those states
it never returns `False`.  But when `current_connection` is absent it
raises AttributeError instead of running the connect cycle. -/
theorem check_connection_behavior (cfg : SMBCfg) (c : Conn)
    (listOk : Endpoint → Bool) (res : Option Conn)
    (hmatch : pyUpper c.remote_name = pyUpper cfg.master_node.host ∨
      pyUpper c.remote_name = pyUpper cfg.backup_node.host)
    (hres : res.isSome = true) :
    check_connection cfg (some c) listOk res = CheckResult.retTrue ∧
    check_connection cfg none listOk res = CheckResult.raised PyErr.attributeError := by
  obtain ⟨v, rfl⟩ := Option.isSome_iff_exists.mp hres
  refine ⟨?_, rfl⟩
  rcases hmatch with hm | hb
  · simp [check_connection, hm]
  · by_cases hm : pyUpper c.remote_name = pyUpper cfg.master_node.host
    · simp [check_connection, hm]
    · simp [check_connection, hm, hb]

/-- C4 (witness). -/
theorem check_connection_behavior_witness :
    check_connection cfgEx (some ⟨"master.example"⟩) (fun _ => false)
      (some ⟨"backup.example"⟩) = CheckResult.retTrue ∧
    check_connection cfgEx none (fun _ => false) (some ⟨"backup.example"⟩) =
      CheckResult.raised PyErr.attributeError :=
  check_connection_behavior cfgEx ⟨"master.example"⟩ (fun _ => false)
    (some ⟨"backup.example"⟩) (Or.inl (by decide)) (by decide)

/-- C7 (confirmed).  On success `download_bytes` returns a buffer holding
the full retrieved contents with the read cursor at position 0; an
existing empty file yields the zero-length buffer `⟨[], 0⟩` without
error; any failure of the delegated `retrieveFile` — a missing file
included — is re-raised rather than swallowed, so a missing file is
distinguishable from an empty one. -/
theorem download_distinguishes (data : List UInt8) (e : PyErr) :
    download_bytes CheckResult.retTrue (Except.ok data) = Except.ok ⟨data, 0⟩ ∧
    download_bytes CheckResult.retTrue (Except.ok []) = Except.ok ⟨[], 0⟩ ∧
    download_bytes CheckResult.retTrue (Except.error e) = Except.error e ∧
    download_bytes CheckResult.retTrue (Except.ok []) ≠
      download_bytes CheckResult.retTrue (Except.error e) := by
  refine ⟨rfl, rfl, rfl, ?_⟩
  simp [download_bytes]

/-- C8 (counterexample).  Constructing `SMBConfig` (and each node model)
with every field absent succeeds, yielding a model whose fields are all
`None`: no configuration error is raised at startup, the `Field(None)`
default is substituted instead. -/
theorem smbconfig_absent_fields_ok_cx :
    SMBConfig.validate none none none none =
      Except.ok ⟨none, none, none, none⟩ ∧
    MasterNode.validate none none none none =
      Except.ok ⟨none, none, none, none⟩ ∧
    BackupNode.validate none none none none =
      Except.ok ⟨none, none, none, none⟩ := by
  refine ⟨rfl, rfl, rfl⟩

/-- C8 (amended).  No configuration field is required: every field of
`MasterNode`, `BackupNode` and `SMBConfig` is declared with default
`None`, so validation succeeds for every combination of present and
absent inputs, substituting `None` for each absent one; misconfiguration
therefore surfaces only when a `None` value is later used, not at
construction. -/
theorem smbconfig_validation_never_fails
    (h s u p : Option String) (mn : Option MasterNode) (bn : Option BackupNode)
    (rwt ra : Option Int) :
    MasterNode.validate h s u p = Except.ok ⟨h, s, u, p⟩ ∧
    BackupNode.validate h s u p = Except.ok ⟨h, s, u, p⟩ ∧
    SMBConfig.validate mn bn rwt ra = Except.ok ⟨mn, bn, rwt, ra⟩ := by
  refine ⟨?_, ?_, ?_⟩ <;>
    cases h <;> cases s <;> cases u <;> cases p <;>
    cases mn <;> cases bn <;> cases rwt <;> cases ra <;> rfl

/-- C9 (counterexample).  Tearing down the manager while no session is
held raises AttributeError (`None.close()`): teardown does not complete
without error in the session-absent state. -/
theorem del_absent_raises_cx :
    smbDel none = Except.error PyErr.attributeError := rfl

/-- C9 (amended).  Teardown releases the session deterministically when
one is held — `close()` is called and `current_connection` is cleared —
but when no session is held it raises AttributeError instead of
completing cleanly. -/
theorem del_releases_session (c : Conn) :
    smbDel (some c) = Except.ok none ∧
    smbDel none = Except.error PyErr.attributeError :=
  ⟨rfl, rfl⟩

/-- Helper: when all creation timestamps are pairwise distinct, the
ascending sort is the reversal of the descending sort. -/
theorem pySort_asc_eq_reverse_desc (entries : List SharedFile)
    (hne : entries.Pairwise (fun a b => a.create_time ≠ b.create_time)) :
    pySortByCreateTime false entries = (pySortByCreateTime true entries).reverse := by
  have hsymm : ∀ {x y : SharedFile},
      x.create_time ≠ y.create_time → y.create_time ≠ x.create_time :=
    fun h => Ne.symm h
  have permA : List.Perm (List.insertionSort ascLE entries) entries :=
    List.perm_insertionSort ascLE entries
  have permD : List.Perm (List.insertionSort descLE entries) entries :=
    List.perm_insertionSort descLE entries
  have permDR : List.Perm (List.insertionSort descLE entries).reverse entries :=
    (List.reverse_perm (List.insertionSort descLE entries)).trans permD
  have sortedA : List.Sorted ascLE (List.insertionSort ascLE entries) :=
    List.sorted_insertionSort ascLE entries
  have sortedD : List.Sorted descLE (List.insertionSort descLE entries) :=
    List.sorted_insertionSort descLE entries
  have sortedDR : (List.insertionSort descLE entries).reverse.Pairwise ascLE := by
    rw [List.pairwise_reverse]
    exact sortedD
  have hneA : (List.insertionSort ascLE entries).Pairwise
      (fun a b => a.create_time ≠ b.create_time) :=
    (List.Perm.pairwise_iff hsymm permA).mpr hne
  have hneDR : (List.insertionSort descLE entries).reverse.Pairwise
      (fun a b => a.create_time ≠ b.create_time) :=
    (List.Perm.pairwise_iff hsymm permDR).mpr hne
  have strictA : (List.insertionSort ascLE entries).Pairwise
      (fun a b => a.create_time < b.create_time) :=
    List.Pairwise.imp₂ (fun _ _ hle hn => lt_of_le_of_ne hle hn) sortedA hneA
  have strictDR : (List.insertionSort descLE entries).reverse.Pairwise
      (fun a b => a.create_time < b.create_time) :=
    List.Pairwise.imp₂ (fun _ _ hle hn => lt_of_le_of_ne hle hn) sortedDR hneDR
  haveI : IsAntisymm SharedFile (fun a b => a.create_time < b.create_time) :=
    ⟨fun _ _ h1 h2 => absurd h1 (lt_asymm h2)⟩
  have hperm : List.Perm (List.insertionSort ascLE entries)
      (List.insertionSort descLE entries).reverse :=
    permA.trans permDR.symm
  have : List.insertionSort ascLE entries =
      (List.insertionSort descLE entries).reverse :=
    List.eq_of_perm_of_sorted hperm strictA strictDR
  simpa [pySortByCreateTime] using this

/-- C5 (confirmed).  With a usable connection, `ls` returns exactly the
filenames of the entries, sorted by creation timestamp — descending for
the default `sort_order = "desc"`, ascending for `"asc"` (each result is
the filename image of a permutation of the entries, sorted accordingly);
when the timestamps are pairwise distinct the ascending ordering is the
full reversal of the descending one; and on entries with timestamps
`[3, 1, 2]` the descending result lists the filenames in index order
`[0, 2, 1]` and the ascending result in index order `[1, 2, 0]`. -/
theorem ls_sorted_spec (entries : List SharedFile) :
    (∃ ld : List SharedFile, List.Perm ld entries ∧ List.Sorted descLE ld ∧
      ls CheckResult.retTrue entries "desc" = Except.ok (ld.map (fun f => f.filename))) ∧
    (∃ la : List SharedFile, List.Perm la entries ∧ List.Sorted ascLE la ∧
      ls CheckResult.retTrue entries "asc" = Except.ok (la.map (fun f => f.filename))) ∧
    (entries.Pairwise (fun a b => a.create_time ≠ b.create_time) →
      ∃ names : List String,
        ls CheckResult.retTrue entries "desc" = Except.ok names ∧
        ls CheckResult.retTrue entries "asc" = Except.ok names.reverse) ∧
    (ls CheckResult.retTrue ex312 "desc" = Except.ok ["f0", "f2", "f1"] ∧
      ls CheckResult.retTrue ex312 "asc" = Except.ok ["f1", "f2", "f0"]) := by
  refine ⟨?_, ?_, ?_, by constructor <;> rfl⟩
  · exact ⟨List.insertionSort descLE entries, List.perm_insertionSort descLE entries,
      List.sorted_insertionSort descLE entries, by simp [ls, pySortByCreateTime]⟩
  · refine ⟨List.insertionSort ascLE entries, List.perm_insertionSort ascLE entries,
      List.sorted_insertionSort ascLE entries, ?_⟩
    have hso : ("asc" == "desc") = false := by decide
    simp [ls, pySortByCreateTime, hso]
  · intro hne
    refine ⟨(pySortByCreateTime true entries).map (fun f => f.filename),
      by simp [ls], ?_⟩
    have hso : ("asc" == "desc") = false := by decide
    have h := pySort_asc_eq_reverse_desc entries hne
    simp [ls, hso, h, List.map_reverse]

/-- C5 (witness). -/
theorem ls_sorted_spec_witness :
    (∃ ld : List SharedFile, List.Perm ld ex312 ∧ List.Sorted descLE ld ∧
      ls CheckResult.retTrue ex312 "desc" = Except.ok (ld.map (fun f => f.filename))) ∧
    (∃ names : List String,
      ls CheckResult.retTrue ex312 "desc" = Except.ok names ∧
      ls CheckResult.retTrue ex312 "asc" = Except.ok names.reverse) :=
  ⟨(ls_sorted_spec ex312).1,
   (ls_sorted_spec ex312).2.2.1 (by decide)⟩

/-- C6 (confirmed).  `check_file_in_directory` is derived from `ls` (the
same `ls dir_path` call with its default arguments, over the same
directory state): it returns `True` exactly when the file name appears in
the result of that `ls` call, `False` otherwise — the empty directory
included — and it propagates exactly the error `ls` raises. -/
theorem exists_iff_mem_ls (check : CheckResult) (entries : List SharedFile)
    (file_name : String) :
    (∀ names : List String, ls check entries "desc" = Except.ok names →
      (check_file_in_directory check entries file_name = Except.ok true ↔
        file_name ∈ names)) ∧
    (∀ e : PyErr, ls check entries "desc" = Except.error e →
      check_file_in_directory check entries file_name = Except.error e) ∧
    check_file_in_directory CheckResult.retTrue [] file_name = Except.ok false := by
  refine ⟨fun names h => ?_, fun e h => ?_, rfl⟩
  · simp [check_file_in_directory, h]
  · simp [check_file_in_directory, h]

/-- C6 (witness). -/
theorem exists_iff_mem_ls_witness :
    (check_file_in_directory CheckResult.retTrue ex312 "f1" = Except.ok true ↔
      "f1" ∈ ["f0", "f2", "f1"]) ∧
    check_file_in_directory CheckResult.retTrue [] "f1" = Except.ok false :=
  ⟨(exists_iff_mem_ls CheckResult.retTrue ex312 "f1").1 ["f0", "f2", "f1"] (by rfl),
   (exists_iff_mem_ls CheckResult.retTrue [] "f1").2.2⟩

/-- C10 (confirmed).  When a session is present whose remote identity
matches (case-insensitively) neither the configured master host nor the
configured backup host, `check_connection` takes neither branch and
falls through returning `None`; a subsequent `ls` sees that falsy result
and raises the generic `Exception("not available connection")` instead of
health-checking or reconnecting. -/
theorem mismatch_check_none_ls_raises (cfg : SMBCfg) (c : Conn)
    (listOk : Endpoint → Bool) (res : Option Conn)
    (entries : List SharedFile) (sort_order : String)
    (hm : pyUpper c.remote_name ≠ pyUpper cfg.master_node.host)
    (hb : pyUpper c.remote_name ≠ pyUpper cfg.backup_node.host) :
    check_connection cfg (some c) listOk res = CheckResult.retNone ∧
    ls (check_connection cfg (some c) listOk res) entries sort_order =
      Except.error (PyErr.exceptionMsg "not available connection") := by
  have h : check_connection cfg (some c) listOk res = CheckResult.retNone := by
    simp [check_connection, hm, hb]
  exact ⟨h, by rw [h]; rfl⟩

/-- C10 (witness). -/
theorem mismatch_check_none_ls_raises_witness :
    check_connection cfgEx (some ⟨"other.example"⟩) (fun _ => true)
      (some ⟨"master.example"⟩) = CheckResult.retNone ∧
    ls (check_connection cfgEx (some ⟨"other.example"⟩) (fun _ => true)
      (some ⟨"master.example"⟩)) ex312 "desc" =
      Except.error (PyErr.exceptionMsg "not available connection") :=
  mismatch_check_none_ls_raises cfgEx ⟨"other.example"⟩ (fun _ => true)
    (some ⟨"master.example"⟩) ex312 "desc" (by decide) (by decide)

end Smb
